import Mathlib

/-!
Verification of the e-commerce catalog backend: a shallow embedding of the
product-list query builder (`getAllProducts`), the product update controller
(`updateProduct`), the generic CRUD controller factory, the user model's
password-hashing save hook, the JWT auth middleware (`protect`), the
user-facing response serialization, and the Excel mass-upload row mapper
(`uploadMassProducts`), together with theorems about their behaviour.

JavaScript numbers that can be `NaN` are modelled by `JSNum` (a rational or
`NaN`, for `parseFloat` results) and `JSInt` (an integer, `NaN` or
`Infinity`, for `parseInt` results and the arithmetic built on them);
`parseFloat`/`parseInt` are modelled on plain decimal literals (exponents
and the literal `Infinity` are not modelled, which is the only divergence
from the JS functions and is irrelevant to every statement below, since
non-numeric strings map to `NaN` either way).
-/

/-- Model of a JavaScript number produced by `parseFloat`: either a finite
value (a rational) or `NaN`. -/
inductive JSNum where
  | nan
  | num (q : ℚ)
deriving DecidableEq

/-- Model of a JavaScript number produced by `parseInt` and by the integer
arithmetic built on it: an integer, `NaN`, or `Infinity` (which only arises
from `Math.ceil(n / 0)`). -/
inductive JSInt where
  | nan
  | inf
  | int (n : ℤ)
deriving DecidableEq

namespace JSInt

/-- JS subtraction on integer-valued numbers, with `NaN` propagation.
`Infinity` never reaches this operation in the controller (only `totalPages`
can be `Infinity`), so the `inf` cases are collapsed to `NaN`. -/
def sub : JSInt → JSInt → JSInt
  | int a, int b => int (a - b)
  | _, _ => nan

/-- JS multiplication on integer-valued numbers, with `NaN` propagation.
`Infinity` never reaches this operation in the controller, so the `inf`
cases are collapsed to `NaN`. -/
def mul : JSInt → JSInt → JSInt
  | int a, int b => int (a * b)
  | _, _ => nan

end JSInt

/-- Longest leading run of decimal digits of a character list, together with
the rest of the list. -/
def takeDigits : List Char → List ℕ × List Char
  | [] => ([], [])
  | c :: cs =>
    if c.isDigit then
      let r := takeDigits cs
      ((c.toNat - 48) :: r.1, r.2)
    else ([], c :: cs)

/-- Value of a digit list read in base 10. -/
def digitsVal (ds : List ℕ) : ℕ := ds.foldl (fun a d => a * 10 + d) 0

/-- Leading-whitespace characters skipped by JS numeric parsing. -/
def isJsSpace (c : Char) : Bool := c == ' ' || c == '\t' || c == '\n' || c == '\r'

/-- Model of JS `parseFloat` on plain decimal literals: optional sign, digits,
optional fractional part; any trailing garbage is ignored; a string with no
leading numeric prefix parses to `NaN`. -/
def parseFloatJS (s : String) : JSNum :=
  let cs := s.data.dropWhile isJsSpace
  let signAndRest : Bool × List Char :=
    match cs with
    | '-' :: rest => (true, rest)
    | '+' :: rest => (false, rest)
    | _ => (false, cs)
  let ints := takeDigits signAndRest.2
  let fracs : List ℕ :=
    match ints.2 with
    | '.' :: rest => (takeDigits rest).1
    | _ => []
  if ints.1.isEmpty ∧ fracs.isEmpty then JSNum.nan
  else
    let v : ℚ :=
      if fracs.isEmpty then (digitsVal ints.1 : ℚ)
      else (digitsVal ints.1 : ℚ) + (digitsVal fracs : ℚ) / ((10 : ℚ) ^ fracs.length)
    JSNum.num (if signAndRest.1 then -v else v)

/-- Model of JS `parseInt(s, 10)`: optional sign then the longest decimal
digit prefix; a string with no leading digits parses to `NaN`. -/
def parseIntJS (s : String) : JSInt :=
  let cs := s.data.dropWhile isJsSpace
  let signAndRest : Bool × List Char :=
    match cs with
    | '-' :: rest => (true, rest)
    | '+' :: rest => (false, rest)
    | _ => (false, cs)
  let ds := (takeDigits signAndRest.2).1
  if ds.isEmpty then JSInt.nan
  else JSInt.int (if signAndRest.1 then -(digitsVal ds : ℤ) else (digitsVal ds : ℤ))

/-- JS `String.prototype.trim` (whitespace stripped from both ends). -/
def jsTrim (s : String) : String :=
  ⟨((s.data.dropWhile Char.isWhitespace).reverse.dropWhile Char.isWhitespace).reverse⟩

/-- JS truthiness of an optional string request parameter: absent
(`undefined`) and the empty string are falsy, any other string is truthy. -/
def jsTruthy : Option String → Bool
  | none => false
  | some s => s != ""

namespace ProductList

/-- A stored product document, restricted to the fields the list endpoint
filters and sorts on (`NombreProducto`, `PrecioVenta`, `idMarca`, `idColor`,
`createdAt`). -/
structure Product where
  nombre : String
  precio : ℚ
  idMarca : String
  idColor : Option String
  createdAt : ℕ
deriving DecidableEq

/-- The `PrecioVenta` sub-object of the Mongo filter: optional `$gte` and
`$lte` bounds, which the controller fills with `parseFloat` results (possibly
`NaN`). -/
structure PriceFilter where
  gte : Option JSNum
  lte : Option JSNum
deriving DecidableEq

/-- The filter object `getAllProducts` builds for `countDocuments` and
`find`. -/
structure FilterObject where
  nombreRegex : Option String
  idMarca : Option String
  idColor : Option String
  precioVenta : Option PriceFilter
deriving DecidableEq

/-- The request query parameters read by `getAllProducts` (all strings in
Express; absent parameters are `none`). -/
structure Query where
  search : Option String
  marca : Option String
  color : Option String
  minPrice : Option String
  maxPrice : Option String
  sort : Option String
  page : Option String
  limit : Option String
deriving DecidableEq

/-- Mirrors the construction of `filterObject` in `getAllProducts`: each
truthy parameter adds its clause; a truthy `minPrice`/`maxPrice` adds a
`PrecioVenta` range whose bounds are the raw `parseFloat` results. -/
def buildFilter (q : Query) : FilterObject :=
  let f : FilterObject := ⟨none, none, none, none⟩
  let f := if jsTruthy q.search then { f with nombreRegex := q.search } else f
  let f := if jsTruthy q.marca then { f with idMarca := q.marca } else f
  let f := if jsTruthy q.color then { f with idColor := q.color } else f
  if jsTruthy q.minPrice || jsTruthy q.maxPrice then
    let pf : PriceFilter := ⟨none, none⟩
    let pf :=
      if jsTruthy q.minPrice then { pf with gte := some (parseFloatJS (q.minPrice.getD "")) }
      else pf
    let pf :=
      if jsTruthy q.maxPrice then { pf with lte := some (parseFloatJS (q.maxPrice.getD "")) }
      else pf
    { f with precioVenta := some pf }
  else f

/-- Lower-cased character list of a string (for the case-insensitive
`$regex` match). -/
def lowerChars (s : String) : List Char := s.data.map Char.toLower

/-- Case-insensitive substring test, modelling `{ $regex: search,
$options: 'i' }` for plain search strings. -/
def icontains (needle hay : String) : Bool :=
  (lowerChars hay).tails.any (fun t => (lowerChars needle).isPrefixOf t)

/-- `a ≤ b` on possibly-`NaN` numbers; comparisons involving `NaN` are false
(so a `NaN` price bound matches no stored numeric price). -/
def jsNumLe : JSNum → JSNum → Bool
  | JSNum.num a, JSNum.num b => a ≤ b
  | _, _ => false

/-- Whether a stored product satisfies the filter object (the store's
evaluation of the query). -/
def matchesFilter (f : FilterObject) (p : Product) : Bool :=
  (match f.nombreRegex with
   | none => true
   | some s => icontains s p.nombre) &&
  (match f.idMarca with
   | none => true
   | some m => p.idMarca == m) &&
  (match f.idColor with
   | none => true
   | some c => p.idColor == some c) &&
  (match f.precioVenta with
   | none => true
   | some pf =>
     (match pf.gte with
      | none => true
      | some b => jsNumLe b (JSNum.num p.precio)) &&
     (match pf.lte with
      | none => true
      | some b => jsNumLe (JSNum.num p.precio) b))

/-- The three sort orders the endpoint can produce. -/
inductive SortKey where
  | priceAsc
  | priceDesc
  | newest
deriving DecidableEq

/-- Mirrors the `switch (sort)` statement (with the destructuring default
`'newest'` for an absent parameter): unrecognized values fall back to
creation-time descending. -/
def sortKeyOf (s : Option String) : SortKey :=
  match s with
  | none => SortKey.newest
  | some "price-asc" => SortKey.priceAsc
  | some "price-desc" => SortKey.priceDesc
  | some _ => SortKey.newest

/-- The ordering predicate for each sort key. -/
def sortLe (k : SortKey) (a b : Product) : Bool :=
  match k with
  | SortKey.priceAsc => a.precio ≤ b.precio
  | SortKey.priceDesc => b.precio ≤ a.precio
  | SortKey.newest => b.createdAt ≤ a.createdAt

/-- Insertion into a sorted list (store-side sorting model). -/
def insertBy (le : Product → Product → Bool) (x : Product) : List Product → List Product
  | [] => [x]
  | y :: ys => if le x y then x :: y :: ys else y :: insertBy le x ys

/-- Insertion sort (store-side sorting model). -/
def sortByLe (le : Product → Product → Bool) : List Product → List Product
  | [] => []
  | x :: xs => insertBy le x (sortByLe le xs)

/-- `pageNum`: `parseInt(page, 10)` with the destructuring default `1` when
the parameter is absent. -/
def pageNumOf (q : Query) : JSInt :=
  match q.page with
  | none => JSInt.int 1
  | some s => parseIntJS s

/-- `limitNum`: `parseInt(limit, 10)` with the destructuring default `8` when
the parameter is absent. -/
def limitNumOf (q : Query) : JSInt :=
  match q.limit with
  | none => JSInt.int 8
  | some s => parseIntJS s

/-- `skip = (pageNum - 1) * limitNum` in JS arithmetic. -/
def skipOf (q : Query) : JSInt :=
  JSInt.mul (JSInt.sub (pageNumOf q) (JSInt.int 1)) (limitNumOf q)

/-- `Product.countDocuments(filterObject)`: the number of stored documents
matching the filter. -/
def countDocuments (store : List Product) (f : FilterObject) : ℕ :=
  (store.filter (matchesFilter f)).length

/-- A `skip` argument the store accepts: a non-negative integer; `NaN` or a
negative value makes the store reject the query. -/
def toCount : JSInt → Option ℕ
  | JSInt.int n => if 0 ≤ n then some n.toNat else none
  | _ => none

/-- A `limit` argument the store accepts: any integer (`0` means no limit and
a negative limit caps at its absolute value, as in MongoDB); `NaN` makes the
store reject the query. -/
def toLimit : JSInt → Option ℤ
  | JSInt.int n => some n
  | _ => none

/-- `Product.find(filterObject).sort(sortObject).skip(skip).limit(limitNum)`:
`none` models a store-side query error (e.g. `NaN` skip). -/
def findDocs (store : List Product) (f : FilterObject) (k : SortKey)
    (skip limit : JSInt) : Option (List Product) :=
  match toCount skip, toLimit limit with
  | some s, some l =>
    let base := (sortByLe (sortLe k) (store.filter (matchesFilter f))).drop s
    some (if l = 0 then base else base.take l.natAbs)
  | _, _ => none

/-- `Math.ceil(totalProducts / limitNum)` in JS arithmetic: division of the
non-negative integer count by an integer (ceiling computed with Euclidean
division), by zero (`Infinity`, or `NaN` for `0/0`), or by `NaN` (`NaN`). -/
def jsCeilDiv (total : ℕ) (limit : JSInt) : JSInt :=
  match limit with
  | JSInt.nan => JSInt.nan
  | JSInt.inf => JSInt.int 0
  | JSInt.int l =>
    if l = 0 then (if total = 0 then JSInt.nan else JSInt.inf)
    else if 0 < l then JSInt.int (((total : ℤ) + l - 1).ediv l)
    else JSInt.int (-((total : ℤ).ediv (-l)))

/-- The JSON body of a successful `getAllProducts` response. -/
structure ListResponse where
  products : List Product
  currentPage : JSInt
  totalPages : JSInt
  totalProducts : ℕ
deriving DecidableEq

/-- `getAllProducts`: builds the filter once, counts with it, derives
`totalPages` from that count, and fetches the page with the same filter;
`none` models the 500 error path when the store rejects the paged query. -/
def getAllProducts (store : List Product) (q : Query) : Option ListResponse :=
  let f := buildFilter q
  let total := countDocuments store f
  (findDocs store f (sortKeyOf q.sort) (skipOf q) (limitNumOf q)).map
    (fun ps => ⟨ps, pageNumOf q, jsCeilDiv total (limitNumOf q), total⟩)

end ProductList

namespace ProductUpdate

/-- A stored product document as read back by `findById(id).lean()`; the
schema guarantees `PrecioVenta` and `stock` are numbers. -/
structure ProductDoc where
  nombre : String
  precio : ℚ
  stock : ℤ
  imagen : Option String
  idMarca : String
  idModelo : Option String
  idColor : Option String
  idTalla : Option String
deriving DecidableEq

/-- The request body fields `updateProduct` destructures (absent fields are
`none`, i.e. `undefined`). -/
structure UpdateBody where
  nombre : Option String
  precioVenta : Option String
  stock : Option String
  idMarca : Option String
  idModelo : Option String
  idColor : Option String
  idTalla : Option String
deriving DecidableEq

/-- `parseFloat(PrecioVenta)` where an absent body field is `undefined`
(`parseFloat(undefined)` is `NaN`). -/
def parseBodyFloat : Option String → JSNum
  | none => JSNum.nan
  | some s => parseFloatJS s

/-- `parseInt(stock, 10)` where an absent body field is `undefined`. -/
def parseBodyInt : Option String → JSInt
  | none => JSInt.nan
  | some s => parseIntJS s

/-- The document state produced by `findByIdAndUpdate(id, updateData, ...)`:
numeric fields fall back to the prior value when unparsable, an `undefined`
field in `updateData` leaves the stored value (Mongoose strips `undefined`),
`idModelo || null` (and the other optional ids) clear the field when falsy,
and a new upload replaces the image. -/
def computeUpdate (prod : ProductDoc) (body : UpdateBody) (file : Option String) : ProductDoc :=
  let numericPrecio := parseBodyFloat body.precioVenta
  let numericStock := parseBodyInt body.stock
  { nombre := body.nombre.getD prod.nombre
    precio := match numericPrecio with
      | JSNum.num q => q
      | _ => prod.precio
    stock := match numericStock with
      | JSInt.int n => n
      | _ => prod.stock
    imagen := match file with
      | some p => some p
      | none => prod.imagen
    idMarca := body.idMarca.getD prod.idMarca
    idModelo := if jsTruthy body.idModelo then body.idModelo else none
    idColor := if jsTruthy body.idColor then body.idColor else none
    idTalla := if jsTruthy body.idTalla then body.idTalla else none }

/-- Outcome of `updateProduct`: 404 when the id does not resolve, a 500
validation error when the schema rejects the update (`PrecioVenta` has
`min: 0`), or the updated document together with whether
`sendPriceChangeEmail` was dispatched. -/
inductive UpdateResult where
  | notFound
  | validationError
  | ok (updated : ProductDoc) (emailSent : Bool)
deriving DecidableEq

/-- `updateProduct`: reads the prior state, computes the new document, and
after a successful update dispatches the price-change notification exactly
when `oldPrice !== newPrice`. -/
def updateProduct (before : Option ProductDoc) (body : UpdateBody)
    (file : Option String) : UpdateResult :=
  match before with
  | none => UpdateResult.notFound
  | some prod =>
    let updated := computeUpdate prod body file
    if updated.precio < 0 then UpdateResult.validationError
    else UpdateResult.ok updated (decide (prod.precio ≠ updated.precio))

end ProductUpdate

namespace GenericCrud

/-- The JSON body of a generic-controller response. -/
inductive CrudBody (α : Type) where
  | item (it : α)
  | message (msg : String)
  | deletedAck (msg : String) (idVal : String)
  | errorMsg (msg : String) (err : String)
deriving DecidableEq

/-- An HTTP response of the generic controller: status code and body. -/
structure CrudResponse (α : Type) where
  status : ℕ
  body : CrudBody α
deriving DecidableEq

/-- `handleError(res, error, message)`: a 500 response carrying the operation
message and the error's own message. -/
def handleError (α : Type) (message : String) (err : String) : CrudResponse α :=
  ⟨500, CrudBody.errorMsg message err⟩

/-- `createOne(Model)`: the store's `save()` either yields the created record
(201) or throws (e.g. a `ValidationError`), which `handleError` turns into a
500 response. -/
def createOne (α : Type) (saveResult : Except String α) : CrudResponse α :=
  match saveResult with
  | Except.ok saved => ⟨201, CrudBody.item saved⟩
  | Except.error e => handleError α "Error al crear el item" e

/-- `updateOne(Model)`: `findByIdAndUpdate` yields `null` (404), the updated
record (200), or throws (500 via `handleError`). -/
def updateOne (α : Type) (updateResult : Except String (Option α)) : CrudResponse α :=
  match updateResult with
  | Except.ok none => ⟨404, CrudBody.message "Item no encontrado"⟩
  | Except.ok (some it) => ⟨200, CrudBody.item it⟩
  | Except.error e => handleError α "Error al actualizar el item" e

/-- `deleteOne(Model)`: `findByIdAndDelete` yields `null` (404), a deleted
record (200 with the request's id echoed back), or throws (500). -/
def deleteOne (α : Type) (idParam : String)
    (deleteResult : Except String (Option α)) : CrudResponse α :=
  match deleteResult with
  | Except.ok none => ⟨404, CrudBody.message "Item no encontrado"⟩
  | Except.ok (some _) => ⟨200, CrudBody.deletedAck "Item eliminado exitosamente" idParam⟩
  | Except.error e => handleError α "Error al eliminar el item" e

/-- A client-error HTTP status (4xx). -/
def isClientErrorStatus (s : ℕ) : Bool := 400 ≤ s && s < 500

end GenericCrud

namespace UserModel

/-- A user document in memory, with Mongoose's dirty-tracking flag for the
`password` path (`isModified('password')`). -/
structure UserDoc where
  nombre : String
  email : String
  password : String
  idRol : String
  passwordModified : Bool
deriving DecidableEq

/-- Assigning `user.password = p`: Mongoose marks the path modified only when
the assigned value differs from the current one. -/
def setPassword (u : UserDoc) (p : String) : UserDoc :=
  if p = u.password then u
  else { u with password := p, passwordModified := true }

/-- The `userSchema.pre('save')` hook: when the password path is modified the
stored value is replaced by its bcrypt hash (modelled by an abstract `hash`
function) and the dirty flag is cleared by the save; otherwise the document
is saved unchanged. -/
def preSaveHook (hash : String → String) (u : UserDoc) : UserDoc :=
  if u.passwordModified then { u with password := hash u.password, passwordModified := false }
  else u

/-- The `updateUser` controller body applied to a fetched user: `nombre` and
`email` keep their prior values when the body field is falsy, the password is
assigned only when provided with length ≥ 6, and `save()` runs the pre-save
hook. -/
def applyUpdateUser (hash : String → String) (user : UserDoc)
    (nombre email pw : Option String) : UserDoc :=
  let u := { user with
    nombre := if jsTruthy nombre then nombre.getD user.nombre else user.nombre
    email := if jsTruthy email then email.getD user.email else user.email }
  let u := match pw with
    | some p => if jsTruthy (some p) && 6 ≤ p.length then setPassword u p else u
    | none => u
  preSaveHook hash u

/-- A serialized user as sent in a JSON response; `password = none` means the
key is absent from the payload. -/
structure UserJson where
  nombre : String
  email : String
  idRol : String
  password : Option String
deriving DecidableEq

/-- Plain serialization of a user document (all stored fields present). -/
def toJson (u : UserDoc) : UserJson := ⟨u.nombre, u.email, u.idRol, some u.password⟩

/-- `user.password = undefined` before `res.json(...)`: the serialized
payload omits the password. -/
def stripPassword (j : UserJson) : UserJson := { j with password := none }

/-- `loginUser` success payload: after finding the user by email and matching
the password, the response carries the token and the user with
`password = undefined`. `none` models the 401 paths. -/
def loginUser (findByEmail : Option UserDoc) (passwordOk : String → String → Bool)
    (password token : String) : Option (String × UserJson) :=
  match findByEmail with
  | none => none
  | some user =>
    if passwordOk password user.password then some (token, stripPassword (toJson user))
    else none

/-- `registerAdmin` success payload: a new document (whose password path is
modified, so the save hook hashes it) serialized with
`password = undefined`. `none` models the error paths (missing role,
duplicate email). -/
def registerAdmin (hash : String → String) (adminRoleId : Option String)
    (emailExists : Bool) (nombre email password : String) : Option UserJson :=
  match adminRoleId with
  | none => none
  | some rid =>
    if emailExists then none
    else
      let newUser : UserDoc := ⟨nombre, email, password, rid, true⟩
      some (stripPassword (toJson (preSaveHook hash newUser)))

/-- `registerClient` success payload: as `registerAdmin` but with the client
role and an auto-login token. -/
def registerClient (hash : String → String) (clientRoleId : Option String)
    (emailExists : Bool) (nombre email password token : String) :
    Option (String × UserJson) :=
  if password.length < 6 then none
  else
    match clientRoleId with
    | none => none
    | some rid =>
      if emailExists then none
      else
        let newUser : UserDoc := ⟨nombre, email, password, rid, true⟩
        some (token, stripPassword (toJson (preSaveHook hash newUser)))

/-- `getAdminUsers` success payload: the users with the admin role id,
serialized through `.select('-password')`. `none` models the missing-role
error path. -/
def getAdminUsers (adminRoleId : Option String) (users : List UserDoc) :
    Option (List UserJson) :=
  match adminRoleId with
  | none => none
  | some rid =>
    some ((users.filter (fun u => u.idRol == rid)).map (fun u => stripPassword (toJson u)))

/-- `updateUser` success payload: the saved user with
`updatedUser.password = undefined`. `none` models the 404 path. -/
def updateUserEndpoint (hash : String → String) (stored : Option UserDoc)
    (nombre email pw : Option String) : Option UserJson :=
  match stored with
  | none => none
  | some user => some (stripPassword (toJson (applyUpdateUser hash user nombre email pw)))

end UserModel

namespace AuthGate

/-- What the `protect` middleware did with a request: whether `next()` was
invoked and the status codes it attempted to send, in order. -/
structure AuthResult where
  nextCalled : Bool
  statuses : List ℕ
deriving DecidableEq

/-- The token `split(' ')[1]` extracts from the header, when the header is
present and starts with `'Bearer'` (`none` is JS `undefined`). -/
def extractedToken (h : String) : Option String := (h.splitOn " ").get? 1

/-- The `protect` middleware: `verify` models `jwt.verify` against the shared
secret (`none` = throws: malformed, expired or otherwise invalid; also thrown
for an `undefined` token). After the try/catch the code falls through to
`if (!token)`, which fires a second 401 when the extracted token is falsy. -/
def protect (authHeader : Option String) (verify : String → Option String) : AuthResult :=
  match authHeader with
  | some h =>
    if h.startsWith "Bearer" then
      match extractedToken h with
      | some tok =>
        match verify tok with
        | some _ => if tok = "" then ⟨true, [401]⟩ else ⟨true, []⟩
        | none => if tok = "" then ⟨false, [401, 401]⟩ else ⟨false, [401]⟩
      | none => ⟨false, [401, 401]⟩
    else ⟨false, [401]⟩
  | none => ⟨false, [401]⟩

end AuthGate

namespace MassUpload

/-- The product object built from one Excel row (`productData`); `none`
fields were never assigned. Field values of `PrecioVenta`/`stock` are the
coerced numbers, other cells are trimmed strings. -/
structure RowData where
  nombreProducto : Option String
  precioVenta : Option ℚ
  stock : Option ℚ
  idMarca : Option String
  idModelo : Option String
  idColor : Option String
  idTalla : Option String
deriving DecidableEq

/-- The empty `productData = {}`. -/
def emptyRowData : RowData := ⟨none, none, none, none, none, none, none⟩

/-- The Excel-header to model-field mapping of `uploadMassProducts` (an
unmapped header is used as the field name directly). -/
def headerToField (h : String) : String :=
  if h = "Nombre Producto" then "NombreProducto"
  else if h = "Precio Venta" then "PrecioVenta"
  else if h = "Marca ID" then "idMarca"
  else if h = "Modelo ID" then "idModelo"
  else if h = "Color ID" then "idColor"
  else if h = "Talla ID" then "idTalla"
  else h

/-- `productData[modelField] = ...`: `PrecioVenta`/`stock` get
`isNaN(parseFloat(cell)) ? 0 : parseFloat(cell)`, the tracked string fields
get the trimmed cell text, any other field name is outside the schema and is
dropped. -/
def assignField (d : RowData) (field : String) (cell : String) : RowData :=
  if field = "PrecioVenta" then
    { d with precioVenta := some (match parseFloatJS cell with
        | JSNum.num q => q
        | _ => 0) }
  else if field = "stock" then
    { d with stock := some (match parseFloatJS cell with
        | JSNum.num q => q
        | _ => 0) }
  else if field = "NombreProducto" then { d with nombreProducto := some (jsTrim cell) }
  else if field = "idMarca" then { d with idMarca := some (jsTrim cell) }
  else if field = "idModelo" then { d with idModelo := some (jsTrim cell) }
  else if field = "idColor" then { d with idColor := some (jsTrim cell) }
  else if field = "idTalla" then { d with idTalla := some (jsTrim cell) }
  else d

/-- The `headers.forEach((header, index) => ...)` loop over one data row: a
cell that is `undefined`/`null` (here `none`, also for an index past the end
of the row) assigns nothing. -/
def mapRow (headers : List String) (row : List (Option String)) : RowData :=
  headers.enum.foldl
    (fun d ih =>
      match (row.get? ih.1).join with
      | some cell => assignField d (headerToField ih.2) cell
      | none => d)
    emptyRowData

/-- The pre-insert required-field check: falsy `NombreProducto`/`idMarca` or
an unassigned `PrecioVenta`/`stock` marks the row invalid. -/
def rowIsValid (d : RowData) : Bool :=
  jsTruthy d.nombreProducto && d.precioVenta.isSome && d.stock.isSome && jsTruthy d.idMarca

/-- `productsToCreate`: every data row mapped, with the invalid rows
(`return null`) filtered out before `insertMany`. -/
def productsToCreate (headers : List String) (rows : List (List (Option String))) :
    List RowData :=
  (rows.map (fun r => mapRow headers r)).filterMap
    (fun d => if rowIsValid d then some d else none)

/-- One entry of the `errors` array built from `BulkWriteError.writeErrors`:
the failing index, the store's message and `productsToCreate[e.index]`. -/
structure UploadError where
  index : ℕ
  message : String
  rowData : Option RowData
deriving DecidableEq

/-- The per-row failure report: `insertMany(productsToCreate, { ordered:
false })` failures (modelled by `failMsg` giving the store's error per
index) mapped to `errors` entries. Only submitted documents can appear. -/
def uploadErrors (docs : List RowData) (failMsg : ℕ → Option String) : List UploadError :=
  docs.enum.filterMap
    (fun ie =>
      match failMsg ie.1 with
      | some m => some ⟨ie.1, m, docs.get? ie.1⟩
      | none => none)

end MassUpload

theorem jsTruthy_none : jsTruthy none = false := rfl

theorem jsintSub_nan_left (y : JSInt) : JSInt.sub JSInt.nan y = JSInt.nan := rfl

theorem jsintMul_nan_left (y : JSInt) : JSInt.mul JSInt.nan y = JSInt.nan := rfl

theorem jsintSub_int_int (a b : ℤ) : JSInt.sub (JSInt.int a) (JSInt.int b) = JSInt.int (a - b) := rfl

theorem jsintMul_int_int (a b : ℤ) : JSInt.mul (JSInt.int a) (JSInt.int b) = JSInt.int (a * b) := rfl

namespace ProductList

theorem mem_insertBy {le : Product → Product → Bool} {x a : Product} :
    ∀ {l : List Product}, a ∈ insertBy le x l → a = x ∨ a ∈ l
  | [], h => by simp [insertBy] at h; exact Or.inl h
  | y :: ys, h => by
    simp only [insertBy] at h
    split at h
    · rcases List.mem_cons.mp h with h1 | h1
      · exact Or.inl h1
      · exact Or.inr h1
    · rcases List.mem_cons.mp h with h1 | h1
      · exact Or.inr (List.mem_cons.mpr (Or.inl h1))
      · rcases mem_insertBy h1 with h2 | h2
        · exact Or.inl h2
        · exact Or.inr (List.mem_cons.mpr (Or.inr h2))

theorem mem_sortByLe {le : Product → Product → Bool} {a : Product} :
    ∀ {l : List Product}, a ∈ sortByLe le l → a ∈ l
  | [], h => by simp [sortByLe] at h
  | x :: xs, h => by
    simp only [sortByLe] at h
    rcases mem_insertBy h with h1 | h1
    · exact h1 ▸ List.mem_cons_self x xs
    · exact List.mem_cons.mpr (Or.inr (mem_sortByLe h1))

theorem findDocs_mem {store : List Product} {f : FilterObject} {k : SortKey}
    {skip limit : JSInt} {ps : List Product}
    (h : findDocs store f k skip limit = some ps) {p : Product} (hp : p ∈ ps) :
    matchesFilter f p = true := by
  cases hs : toCount skip with
  | none => simp [findDocs, hs] at h
  | some s =>
    cases hl : toLimit limit with
    | none => simp [findDocs, hs, hl] at h
    | some l =>
      simp only [findDocs, hs, hl, Option.some.injEq] at h
      have hmem : p ∈ (sortByLe (sortLe k) (store.filter (matchesFilter f))).drop s := by
        rw [← h] at hp
        by_cases h0 : l = 0
        · simpa [h0] using hp
        · exact List.take_subset _ _ (by simpa [h0] using hp)
      have hmem2 : p ∈ store.filter (matchesFilter f) :=
        mem_sortByLe (List.drop_subset _ _ hmem)
      exact (List.mem_filter.mp hmem2).2

/-- C1: for every store state and every combination of the optional
product-list filters, the `totalProducts` count of a successful
`getAllProducts` response is the number of records the same filter object
would return unpaginated, every product on the returned page satisfies that
same filter, and `totalPages` is derived from that same count. -/
theorem C1_pagination_count_consistent (store : List Product) (q : Query)
    (resp : ListResponse) (h : getAllProducts store q = some resp) :
    resp.totalProducts = (store.filter (matchesFilter (buildFilter q))).length ∧
    (∀ p ∈ resp.products, matchesFilter (buildFilter q) p = true) ∧
    resp.totalPages =
      jsCeilDiv (store.filter (matchesFilter (buildFilter q))).length (limitNumOf q) := by
  cases hf : findDocs store (buildFilter q) (sortKeyOf q.sort) (skipOf q) (limitNumOf q) with
  | none => simp [getAllProducts, hf] at h
  | some ps =>
    simp only [getAllProducts, hf, Option.map_some', Option.some.injEq] at h
    refine ⟨?_, ?_, ?_⟩
    · rw [← h]; exact rfl
    · intro p hp
      rw [← h] at hp
      exact findDocs_mem hf hp
    · rw [← h]; exact rfl

/-- Store contents for the concrete instantiation of the list-endpoint
theorems. -/
def witnessStore : List Product :=
  [⟨"Zapato", 10, "m1", none, 1⟩, ⟨"Polo", 20, "m1", none, 2⟩]

/-- The list request with every query parameter absent. -/
def witnessQuery : Query := ⟨none, none, none, none, none, none, none, none⟩

/-- The response `getAllProducts` produces for `witnessStore` and
`witnessQuery`. -/
def witnessResp : ListResponse :=
  ⟨[⟨"Polo", 20, "m1", none, 2⟩, ⟨"Zapato", 10, "m1", none, 1⟩], JSInt.int 1, JSInt.int 1, 2⟩

theorem C1_pagination_count_consistent_witness :
    witnessResp.totalProducts =
      (witnessStore.filter (matchesFilter (buildFilter witnessQuery))).length ∧
    (∀ p ∈ witnessResp.products, matchesFilter (buildFilter witnessQuery) p = true) ∧
    witnessResp.totalPages =
      jsCeilDiv (witnessStore.filter (matchesFilter (buildFilter witnessQuery))).length
        (limitNumOf witnessQuery) :=
  C1_pagination_count_consistent witnessStore witnessQuery witnessResp (by decide)

/-- The list request `?minPrice=abc&page=abc` (both non-numeric), all other
parameters absent. -/
def qNonNumeric : Query := ⟨none, none, none, some "abc", none, none, some "abc", none⟩

/-- C2 counterexample: a non-numeric `minPrice` is not treated as absent —
the built filter differs from the one built without `minPrice` and carries a
`NaN` `$gte` bound — and a non-numeric `page` is not replaced by the default
but propagates `NaN` into the skip value. -/
theorem C2_counterexample_nan_propagated :
    buildFilter qNonNumeric ≠ buildFilter { qNonNumeric with minPrice := none } ∧
    (buildFilter qNonNumeric).precioVenta = some ⟨some JSNum.nan, none⟩ ∧
    skipOf qNonNumeric = JSInt.nan := by decide

/-- C2 (amended): non-numeric `minPrice`/`maxPrice`/`page`/`limit` never
raise in the handler, but they are not discarded or defaulted: a truthy
non-numeric price bound is propagated into the store filter as a `NaN`
bound, and a non-numeric page or limit propagates `NaN` into the skip and
limit values; the defaults `page = 1` and `limit = 8` (hence `skip = 0`)
apply only when the parameter is absent. -/
theorem C2_nonnumeric_propagates_nan (q : Query) (s t u : String)
    (hs : jsTruthy (some s) = true)
    (hsf : parseFloatJS s = JSNum.nan)
    (ht : parseIntJS t = JSInt.nan)
    (hu : parseIntJS u = JSInt.nan) :
    (buildFilter { q with minPrice := some s, maxPrice := none }).precioVenta =
      some ⟨some JSNum.nan, none⟩ ∧
    skipOf { q with page := some t } = JSInt.nan ∧
    limitNumOf { q with limit := some u } = JSInt.nan ∧
    pageNumOf { q with page := none } = JSInt.int 1 ∧
    limitNumOf { q with limit := none } = JSInt.int 8 ∧
    skipOf { q with page := none, limit := none } = JSInt.int 0 := by
  refine ⟨?_, ?_, ?_, rfl, rfl, ?_⟩
  · simp only [buildFilter, hs, hsf, jsTruthy_none, Bool.true_or, if_true, Option.getD_some,
      Bool.false_eq_true, if_false]
  · simp only [skipOf, pageNumOf, ht, jsintSub_nan_left, jsintMul_nan_left]
  · simp only [limitNumOf, hu]
  · simp only [skipOf, pageNumOf, limitNumOf, jsintSub_int_int, jsintMul_int_int, sub_self,
      zero_mul]

theorem C2_nonnumeric_propagates_nan_witness :
    (buildFilter { qNonNumeric with minPrice := some "abc", maxPrice := none }).precioVenta =
      some ⟨some JSNum.nan, none⟩ ∧
    skipOf { qNonNumeric with page := some "x" } = JSInt.nan ∧
    limitNumOf { qNonNumeric with limit := some "y" } = JSInt.nan ∧
    pageNumOf { qNonNumeric with page := none } = JSInt.int 1 ∧
    limitNumOf { qNonNumeric with limit := none } = JSInt.int 8 ∧
    skipOf { qNonNumeric with page := none, limit := none } = JSInt.int 0 :=
  C2_nonnumeric_propagates_nan qNonNumeric "abc" "x" "y"
    (by decide) (by decide) (by decide) (by decide)

/-- C7: for numeric `page = p` and `limit = l` the skip value the endpoint
passes to the store is `(p - 1) * l`, and when both parameters are absent
the defaults `page = 1` and `limit = 8` apply, giving `skip = 0`. -/
theorem C7_skip_formula (q : Query) (sp sl : String) (p l : ℤ)
    (hp : q.page = some sp) (hl : q.limit = some sl)
    (hpp : parseIntJS sp = JSInt.int p) (hll : parseIntJS sl = JSInt.int l) :
    skipOf q = JSInt.int ((p - 1) * l) ∧
    skipOf { q with page := none, limit := none } = JSInt.int 0 ∧
    pageNumOf { q with page := none } = JSInt.int 1 ∧
    limitNumOf { q with limit := none } = JSInt.int 8 := by
  refine ⟨?_, ?_, rfl, rfl⟩
  · simp only [skipOf, pageNumOf, limitNumOf, hp, hl, hpp, hll, jsintSub_int_int,
      jsintMul_int_int]
  · simp only [skipOf, pageNumOf, limitNumOf, jsintSub_int_int, jsintMul_int_int, sub_self,
      zero_mul]

/-- The list request `?page=3&limit=10`, all other parameters absent. -/
def qPage3Limit10 : Query := ⟨none, none, none, none, none, none, some "3", some "10"⟩

theorem C7_skip_formula_witness :
    skipOf qPage3Limit10 = JSInt.int ((3 - 1) * 10) ∧
    skipOf { qPage3Limit10 with page := none, limit := none } = JSInt.int 0 ∧
    pageNumOf { qPage3Limit10 with page := none } = JSInt.int 1 ∧
    limitNumOf { qPage3Limit10 with limit := none } = JSInt.int 8 :=
  C7_skip_formula qPage3Limit10 "3" "10" 3 10 rfl rfl (by decide) (by decide)

end ProductList

namespace ProductUpdate

/-- C3: after a successful product update the price-change notification is
dispatched if and only if the stored price before the update differs from
the price after it; in particular, when the submitted `PrecioVenta` is
unparsable the price falls back to its prior value and no notification is
sent. -/
theorem C3_notify_iff_price_changed (before : ProductDoc) (body : UpdateBody)
    (file : Option String) (updated : ProductDoc) (sent : Bool)
    (h : updateProduct (some before) body file = UpdateResult.ok updated sent) :
    (sent = true ↔ before.precio ≠ updated.precio) ∧
    (∀ s, body.precioVenta = some s → parseFloatJS s = JSNum.nan → sent = false) := by
  simp only [updateProduct] at h
  split at h
  · exact absurd h (by simp)
  · rcases h with ⟨h1, h2⟩
    constructor
    · simp
    · intro s hsv hnan
      simp [computeUpdate, parseBodyFloat, hsv, hnan]

/-- The stored product used to instantiate the update theorems. -/
def witnessDoc : ProductDoc := ⟨"Zapato", 10, 5, none, "m1", none, none, none⟩

/-- An update body whose `PrecioVenta` is the unparsable string `"abc"`. -/
def witnessBody : UpdateBody := ⟨none, some "abc", none, none, none, none, none⟩

theorem C3_notify_iff_price_changed_witness :
    ((false = true) ↔ witnessDoc.precio ≠ witnessDoc.precio) ∧
    (∀ s, witnessBody.precioVenta = some s → parseFloatJS s = JSNum.nan → false = false) :=
  C3_notify_iff_price_changed witnessDoc witnessBody none witnessDoc false (by decide)

end ProductUpdate

namespace GenericCrud

/-- C4 counterexample: when the store rejects the payload (here a Mongoose
validation message), `createOne` responds with status 500 — a server error,
not a client error. -/
theorem C4_counterexample_create_is_500 :
    (createOne ℕ (Except.error "ValidationError: nombre is required")).status = 500 ∧
    isClientErrorStatus
      (createOne ℕ (Except.error "ValidationError: nombre is required")).status = false :=
  ⟨rfl, rfl⟩

/-- C4 (amended): whenever the store rejects the payload, `createOne` fails
and surfaces the error with its message — but as a 500 server-error
response, not a client error; a payload the store accepts yields 201 with
the created record. -/
theorem C4_create_rejection_surfaced (α : Type) (e : String) (it : α) :
    createOne α (Except.error e) =
      ⟨500, CrudBody.errorMsg "Error al crear el item" e⟩ ∧
    isClientErrorStatus (createOne α (Except.error e)).status = false ∧
    createOne α (Except.ok it) = ⟨201, CrudBody.item it⟩ :=
  ⟨rfl, rfl, rfl⟩

/-- C5: `updateOne` on a non-existent id responds 404 and its body carries
no record; `updateOne` on an existing id returns the full updated record;
`deleteOne` on a non-existent id responds 404, and on success responds 200
echoing the deleted id. -/
theorem C5_update_delete_notfound (α : Type) (idParam : String) (it : α) :
    (updateOne α (Except.ok none)).status = 404 ∧
    (∀ r : α, (updateOne α (Except.ok none)).body ≠ CrudBody.item r) ∧
    updateOne α (Except.ok (some it)) = ⟨200, CrudBody.item it⟩ ∧
    (deleteOne α idParam (Except.ok none)).status = 404 ∧
    deleteOne α idParam (Except.ok (some it)) =
      ⟨200, CrudBody.deletedAck "Item eliminado exitosamente" idParam⟩ :=
  ⟨rfl, fun _ h => CrudBody.noConfusion h, rfl, rfl, rfl⟩

theorem C4_create_rejection_surfaced_witness :
    createOne ℕ (Except.error "ValidationError: Path nombre is required.") =
      ⟨500, CrudBody.errorMsg "Error al crear el item"
        "ValidationError: Path nombre is required."⟩ ∧
    isClientErrorStatus
      (createOne ℕ (Except.error "ValidationError: Path nombre is required.")).status =
      false ∧
    createOne ℕ (Except.ok 7) = ⟨201, CrudBody.item 7⟩ :=
  C4_create_rejection_surfaced ℕ "ValidationError: Path nombre is required." 7

theorem C5_update_delete_notfound_witness :
    (updateOne ℕ (Except.ok none)).status = 404 ∧
    (∀ r : ℕ, (updateOne ℕ (Except.ok none)).body ≠ CrudBody.item r) ∧
    updateOne ℕ (Except.ok (some 7)) = ⟨200, CrudBody.item 7⟩ ∧
    (deleteOne ℕ "6610" (Except.ok none)).status = 404 ∧
    deleteOne ℕ "6610" (Except.ok (some 7)) =
      ⟨200, CrudBody.deletedAck "Item eliminado exitosamente" "6610"⟩ :=
  C5_update_delete_notfound ℕ "6610" 7

end GenericCrud

namespace UserModel

/-- C6: in an `updateUser` write on a clean (freshly loaded) user document,
the stored credential becomes the hash of the new plaintext exactly when a
password of length ≥ 6 differing from the stored value was submitted; in
every other case — password absent, too short, or equal to the stored value —
the stored credential is left exactly as it was (neither re-hashed nor
double-hashed). -/
theorem C6_rehash_iff_password_modified (hash : String → String) (user : UserDoc)
    (hclean : user.passwordModified = false) (nombre email pw : Option String) :
    (∀ p, pw = some p → 6 ≤ p.length → p ≠ user.password →
      (applyUpdateUser hash user nombre email pw).password = hash p) ∧
    ((¬ ∃ p, pw = some p ∧ 6 ≤ p.length ∧ p ≠ user.password) →
      (applyUpdateUser hash user nombre email pw).password = user.password) := by
  cases pw with
  | none =>
    constructor
    · intro p hp
      exact absurd hp (by simp)
    · intro _
      simp [applyUpdateUser, preSaveHook, hclean]
  | some p =>
    have hlen0 : 6 ≤ p.length → p ≠ "" := by
      intro h6 h0
      rw [h0] at h6
      exact absurd h6 (by decide)
    constructor
    · intro p' hp' hlen hne
      cases hp'
      have hne0 : p ≠ "" := hlen0 hlen
      simp [applyUpdateUser, setPassword, preSaveHook, jsTruthy, hne0, hlen, hne]
    · intro hnex
      by_cases hlen : 6 ≤ p.length
      · by_cases hpe : p = user.password
        · have hne0 : p ≠ "" := hlen0 hlen
          simp [applyUpdateUser, setPassword, preSaveHook, jsTruthy, hne0, hlen, hpe, hclean]
        · exact absurd ⟨p, rfl, hlen, hpe⟩ hnex
      · simp [applyUpdateUser, preSaveHook, hclean, hlen]

/-- The stored user used to instantiate the user-model theorems. -/
def witnessUser : UserDoc := ⟨"Ana", "ana@mail.com", "oldhash", "r1", false⟩

theorem C6_rehash_iff_password_modified_witness :
    (∀ p, (some "secret123" : Option String) = some p → 6 ≤ p.length →
      p ≠ witnessUser.password →
      (applyUpdateUser (String.append "#") witnessUser none none
        (some "secret123")).password = String.append "#" p) ∧
    ((¬ ∃ p, (some "secret123" : Option String) = some p ∧ 6 ≤ p.length ∧
        p ≠ witnessUser.password) →
      (applyUpdateUser (String.append "#") witnessUser none none
        (some "secret123")).password = witnessUser.password) :=
  C6_rehash_iff_password_modified (String.append "#") witnessUser rfl none none
    (some "secret123")

/-- C9: every success response that returns a user at the public interface —
login, admin registration, client registration, the admin-user listing, and
the user update — omits the stored password hash from the returned user
payload. -/
theorem C9_success_responses_omit_password :
    (∀ findResult pwOk pw tok t u,
        loginUser findResult pwOk pw tok = some (t, u) → u.password = none) ∧
    (∀ hash rid ex n e p u,
        registerAdmin hash rid ex n e p = some u → u.password = none) ∧
    (∀ hash rid ex n e p tok t u,
        registerClient hash rid ex n e p tok = some (t, u) → u.password = none) ∧
    (∀ rid users l, getAdminUsers rid users = some l → ∀ u ∈ l, u.password = none) ∧
    (∀ hash stored n e p u,
        updateUserEndpoint hash stored n e p = some u → u.password = none) := by
  refine ⟨?_, ?_, ?_, ?_, ?_⟩
  · intro findResult pwOk pw tok t u h
    cases findResult with
    | none => simp [loginUser] at h
    | some user =>
      cases hc : pwOk pw user.password with
      | false => simp [loginUser, hc] at h
      | true =>
        simp only [loginUser, hc, if_true, Option.some.injEq, Prod.mk.injEq] at h
        rw [← h.2]
        rfl
  · intro hash rid ex n e p u h
    cases rid with
    | none => simp [registerAdmin] at h
    | some r =>
      cases hex : ex with
      | true => simp [registerAdmin, hex] at h
      | false =>
        simp only [registerAdmin, hex, Bool.false_eq_true, if_false, Option.some.injEq] at h
        rw [← h]
        rfl
  · intro hash rid ex n e p tok t u h
    by_cases hl : p.length < 6
    · simp [registerClient, hl] at h
    · cases rid with
      | none => simp [registerClient, hl] at h
      | some r =>
        cases hex : ex with
        | true => simp [registerClient, hl, hex] at h
        | false =>
          simp only [registerClient, hl, hex, Bool.false_eq_true, if_false,
            Option.some.injEq, Prod.mk.injEq] at h
          rw [← h.2]
          rfl
  · intro rid users l h u hu
    cases rid with
    | none => simp [getAdminUsers] at h
    | some r =>
      simp only [getAdminUsers, Option.some.injEq] at h
      rw [← h] at hu
      rcases List.mem_map.mp hu with ⟨v, _, hv⟩
      rw [← hv]
      rfl
  · intro hash stored n e p u h
    cases stored with
    | none => simp [updateUserEndpoint] at h
    | some user =>
      simp only [updateUserEndpoint, Option.some.injEq] at h
      rw [← h]
      rfl

theorem C9_success_responses_omit_password_witness :
    (stripPassword (toJson witnessUser)).password = none :=
  C9_success_responses_omit_password.1 (some witnessUser) (fun a b => a == b)
    "oldhash" "tok" "tok" (stripPassword (toJson witnessUser)) (by decide)

end UserModel

namespace AuthGate

/-- C8: the middleware calls `next()` (so the protected handler runs) exactly
when the header is present, starts with `Bearer`, yields a token at
`split(' ')[1]`, and `jwt.verify` succeeds on that token; on every other
request — missing, malformed, expired or otherwise invalid token — `next()`
is not called and a 401 response is sent instead. -/
theorem C8_next_iff_token_verified (ah : Option String)
    (verify : String → Option String) :
    ((protect ah verify).nextCalled = true ↔
      ∃ h tok, ah = some h ∧ h.startsWith "Bearer" = true ∧
        extractedToken h = some tok ∧ (verify tok).isSome = true) ∧
    ((protect ah verify).nextCalled = false → 401 ∈ (protect ah verify).statuses) := by
  cases ah with
  | none => constructor <;> simp [protect]
  | some h =>
    cases hb : h.startsWith "Bearer" with
    | false => constructor <;> simp [protect, hb]
    | true =>
      cases he : extractedToken h with
      | none => constructor <;> simp [protect, hb, he]
      | some tok =>
        cases hv : verify tok with
        | none =>
          rcases eq_or_ne tok "" with ht | ht
          · subst ht; constructor <;> simp [protect, hb, he, hv]
          · constructor <;> simp [protect, hb, he, hv, ht]
        | some c =>
          rcases eq_or_ne tok "" with ht | ht
          · subst ht; constructor <;> simp [protect, hb, he, hv]
          · constructor <;> simp [protect, hb, he, hv, ht]

/-- A concrete verifier accepting exactly the token `"good"`. -/
def witnessVerify (t : String) : Option String :=
  if t = "good" then some "id1" else none

theorem C8_next_iff_token_verified_witness :
    ((protect (some "Bearer good") witnessVerify).nextCalled = true ↔
      ∃ h tok, (some "Bearer good" : Option String) = some h ∧
        h.startsWith "Bearer" = true ∧
        extractedToken h = some tok ∧ (witnessVerify tok).isSome = true) ∧
    ((protect (some "Bearer good") witnessVerify).nextCalled = false →
      401 ∈ (protect (some "Bearer good") witnessVerify).statuses) :=
  C8_next_iff_token_verified (some "Bearer good") witnessVerify

end AuthGate

namespace MassUpload

/-- The header row used to instantiate the mass-upload theorems. -/
def sampleHeaders : List String := ["Nombre Producto", "Precio Venta", "stock", "Marca ID"]

/-- C10: a row whose `Precio Venta` or `stock` cell is present but
non-numeric is not rejected — the unparsable value is coerced to `0` and the
row is still submitted for insertion — while a row missing a required field
entirely (here `Marca ID`) is skipped before `insertMany` and can never
appear among the per-row failure reports, which only reference submitted
documents. -/
theorem C10_nonnumeric_coerced_missing_skipped (n ps st m : String)
    (hn : jsTruthy (some (jsTrim n)) = true)
    (hm : jsTruthy (some (jsTrim m)) = true)
    (hps : parseFloatJS ps = JSNum.nan)
    (hst : parseFloatJS st = JSNum.nan) :
    (mapRow sampleHeaders [some n, some ps, some st, some m]).precioVenta = some 0 ∧
    (mapRow sampleHeaders [some n, some ps, some st, some m]).stock = some 0 ∧
    productsToCreate sampleHeaders
        [[some n, some ps, some st, some m], [some n, some ps, some st, none]] =
      [mapRow sampleHeaders [some n, some ps, some st, some m]] ∧
    (∀ docs failMsg e, e ∈ uploadErrors docs failMsg →
        ∃ d, e.rowData = some d ∧ d ∈ docs) := by
  have hmap : mapRow sampleHeaders [some n, some ps, some st, some m] =
      ⟨some (jsTrim n),
       some (match parseFloatJS ps with | JSNum.num q => q | _ => 0),
       some (match parseFloatJS st with | JSNum.num q => q | _ => 0),
       some (jsTrim m), none, none, none⟩ := rfl
  have hmapv : mapRow sampleHeaders [some n, some ps, some st, some m] =
      ⟨some (jsTrim n), some 0, some 0, some (jsTrim m), none, none, none⟩ := by
    rw [hmap]
    simp only [hps, hst]
  have hbad : mapRow sampleHeaders [some n, some ps, some st, none] =
      ⟨some (jsTrim n),
       some (match parseFloatJS ps with | JSNum.num q => q | _ => 0),
       some (match parseFloatJS st with | JSNum.num q => q | _ => 0),
       none, none, none, none⟩ := rfl
  have hbadv : mapRow sampleHeaders [some n, some ps, some st, none] =
      ⟨some (jsTrim n), some 0, some 0, none, none, none, none⟩ := by
    rw [hbad]
    simp only [hps, hst]
  refine ⟨by rw [hmapv], by rw [hmapv], ?_, ?_⟩
  · simp [productsToCreate, rowIsValid, hmapv, hbadv, hn, hm, jsTruthy_none]
  · intro docs failMsg e he
    simp only [uploadErrors, List.mem_filterMap] at he
    rcases he with ⟨ie, hie, heq⟩
    cases hf : failMsg ie.1 with
    | none => rw [hf] at heq; simp at heq
    | some msg =>
      rw [hf] at heq
      simp only [Option.some.injEq] at heq
      have hget : docs.get? ie.1 = some ie.2 := by
        rw [List.get?_eq_getElem?]
        exact List.mem_enum_iff_getElem?.mp hie
      refine ⟨ie.2, ?_, List.get?_mem hget⟩
      rw [← heq]
      exact hget

theorem C10_nonnumeric_coerced_missing_skipped_witness :
    (mapRow sampleHeaders [some "Zapato", some "abc", some "xyz", some "m1"]).precioVenta =
      some 0 ∧
    (mapRow sampleHeaders [some "Zapato", some "abc", some "xyz", some "m1"]).stock = some 0 ∧
    productsToCreate sampleHeaders
        [[some "Zapato", some "abc", some "xyz", some "m1"],
         [some "Zapato", some "abc", some "xyz", none]] =
      [mapRow sampleHeaders [some "Zapato", some "abc", some "xyz", some "m1"]] ∧
    (∀ docs failMsg e, e ∈ uploadErrors docs failMsg →
        ∃ d, e.rowData = some d ∧ d ∈ docs) :=
  C10_nonnumeric_coerced_missing_skipped "Zapato" "abc" "xyz" "m1"
    (by decide) (by decide) (by decide) (by decide)

end MassUpload
